import Mathlib

/-!
Shallow embedding of the message-send pipeline of the chatbot server
(`src/server/routes.ts`, `src/server/storage.ts`): upload filtering,
document extraction, multimodal chat-message assembly, the
Qwen → DeepSeek → OpenAI provider fallback chain, token accounting and
conversation-title seeding.  External effects (file system reads,
network calls to the providers) are modelled by explicit oracle fields
carrying the outcome the effect would produce.
-/

namespace Chatbot

/-! ## Upload filtering (multer config, routes.ts lines 30-48) -/

/-- The `allowedTypes` list of the multer `fileFilter` (routes.ts 37-45). -/
def allowedTypes : List String :=
  [ "image/jpeg"
  , "image/png"
  , "image/gif"
  , "application/pdf"
  , "application/vnd.openxmlformats-officedocument.wordprocessingml.document"
  , "application/vnd.openxmlformats-officedocument.spreadsheetml.sheet"
  , "text/plain" ]

/-- `limits.fileSize` of the multer config (routes.ts 34): 10 * 1024 * 1024. -/
def fileSizeLimit : Nat := 10 * 1024 * 1024

/-- What the multer upload stage does with one incoming file part:
either it is saved and handed to the route handler, or it is silently
omitted while the request proceeds, or the whole request is aborted
with a `MulterError` of the given code before the handler runs. -/
inductive UploadOutcome where
  | accepted
  | dropped
  | aborted (code : String)
deriving Repr, DecidableEq

/-- The multer upload stage for one file (routes.ts 31-48): the
`fileFilter` callback is consulted on the declared media type first —
`cb(null, false)` silently drops a file whose type is not in
`allowedTypes`; an accepted file is then streamed subject to
`limits.fileSize`, and exceeding it aborts the request with multer's
`LIMIT_FILE_SIZE` error (a hard error, not a per-file drop). -/
def uploadFileOutcome (mimetype : String) (size : Nat) : UploadOutcome :=
  if allowedTypes.contains mimetype then
    if size ≤ fileSizeLimit then .accepted
    else .aborted "LIMIT_FILE_SIZE"
  else .dropped

/-- Modelled from the spec (§4.1): the allow-list as the spec words it,
"JPEG/PNG/GIF/WebP images; PDF; a word-processor format; a spreadsheet
format; plain text".  Used only to compare the spec with the source. -/
def specAllowedTypes : List String :=
  [ "image/jpeg"
  , "image/png"
  , "image/gif"
  , "image/webp"
  , "application/pdf"
  , "application/vnd.openxmlformats-officedocument.wordprocessingml.document"
  , "application/vnd.openxmlformats-officedocument.spreadsheetml.sheet"
  , "text/plain" ]

/-- Modelled from the spec (§4.1): acceptance as the spec words it. -/
def specUploadAccept (mimetype : String) (size : Nat) : Bool :=
  specAllowedTypes.contains mimetype && size ≤ fileSizeLimit

/-! ## Document extraction (`processDocument`, routes.ts 50-87)

The extraction backends (`pdf-parse`, `mammoth`, `xlsx`) and
`fs.readFileSync` are external; their outcome on the given file is
carried by oracle fields: `Except.error e` models a thrown exception
whose string interpolation is `e`. -/

/-- An xlsx workbook as `XLSX.read` exposes it: `SheetNames` in file
order, each paired with its `sheet_to_csv` rendering. -/
structure Workbook where
  sheets : List (String × String)
deriving Repr, DecidableEq

/-- What the extraction backends would yield on one file's bytes. -/
structure FileBytes where
  pdfExtract : Except String String
  docxExtract : Except String String
  xlsxRead : Except String Workbook
  utf8 : String
deriving Repr

/-- The xlsx branch's accumulation loop (routes.ts 69-75):
for each sheet, `Sheet: name` then its csv, then a blank line. -/
def excelText (wb : Workbook) : String :=
  wb.sheets.foldl (fun acc p => acc ++ "Sheet: " ++ p.1 ++ "\n" ++ p.2 ++ "\n\n") ""

/-- The body of the `try` in `processDocument` (routes.ts 52-82):
read the file, then dispatch on the declared media type.  Any step may
throw (`Except.error`). -/
def processDocumentExc (readFile : Except String FileBytes) (mimeType : String) :
    Except String String :=
  match readFile with
  | .error e => .error e
  | .ok buffer =>
      match mimeType with
      | "application/pdf" => buffer.pdfExtract
      | "application/vnd.openxmlformats-officedocument.wordprocessingml.document" =>
          buffer.docxExtract
      | "application/vnd.openxmlformats-officedocument.spreadsheetml.sheet" =>
          match buffer.xlsxRead with
          | .error e => .error e
          | .ok wb => .ok (excelText wb)
      | "text/plain" => .ok buffer.utf8
      | _ => .ok ("[File: " ++ mimeType ++ "]")

/-- `processDocument` (routes.ts 50-87): the `try` body wrapped in the
`catch` that substitutes the inline error marker. -/
def processDocument (readFile : Except String FileBytes) (mimeType : String) : String :=
  match processDocumentExc readFile mimeType with
  | .ok s => s
  | .error e => "[Error processing file: " ++ e ++ "]"

/-! ## Token accounting (routes.ts 419-429, storage.ts 223-233) -/

/-- `Math.ceil((content.length + aiContent.length) / 4)` (routes.ts 424);
on naturals the ceiling of `n / 4` is `(n + 3) / 4`. -/
def estimatedTokens (userLen aiLen : Nat) : Nat :=
  (userLen + aiLen + 3) / 4

/-- `DatabaseStorage.updateUserTokenUsage` (storage.ts 223-233): the
`set` clause is the single SQL expression `tokenUsed + tokensUsed`
evaluated by the store against the current column value, so as a state
transformer it is exactly addition to the prior value. -/
def updateUserTokenUsage (tokenUsed tokensUsed : Nat) : Nat :=
  tokenUsed + tokensUsed

/-! ## Conversation title seeding (routes.ts 431-441) -/

/-- JavaScript `String.prototype.split` with a one-character separator
predicate: split at every matching character, keeping empty pieces, so
the empty string yields `[""]`. -/
def splitChars (p : Char → Bool) : List Char → List Char → List String
  | [], acc => [String.mk acc.reverse]
  | c :: cs, acc =>
      if p c then String.mk acc.reverse :: splitChars p cs []
      else splitChars p cs (c :: acc)

/-- `s.split(sep-predicate)` over a whole string. -/
def splitString (p : Char → Bool) (s : String) : List String :=
  splitChars p s.data []

/-- `Array.prototype.join(' ')`. -/
def joinSpace : List String → String
  | [] => ""
  | [x] => x
  | x :: xs => x ++ " " ++ joinSpace xs

/-- `String.prototype.substring(0, n)` (by character). -/
def substringTo (n : Nat) (s : String) : String :=
  String.mk (s.data.take n)

/-- `content.split(' ').slice(0, 6).join(' ')` then the 50-char
truncation with `'...'` (routes.ts 435-436).  JavaScript `split(' ')`
splits on the single space character only. -/
def deriveTitle (content : String) : String :=
  let words := joinSpace ((splitString (· == ' ') content).take 6)
  if words.length > 50 then substringTo 47 words ++ "..." else words

/-- The guard and update of the title block (routes.ts 432-437): seed
only when the stored title is still a sentinel. -/
def titleStep (title content : String) : String :=
  if title = "New Conversation" ∨ title = "New Chat" then deriveTitle content
  else title

/-- Modelled from the spec (§4.6): "the first six whitespace-separated
words of the user's message text", truncated the same way.  Used only to
compare the spec with the source. -/
def specDeriveTitle (content : String) : String :=
  let words := joinSpace
    (((splitString (fun c => c.isWhitespace) content).filter (· ≠ "")).take 6)
  if words.length > 50 then substringTo 47 words ++ "..." else words

/-! ## Messages and multimodal assembly (routes.ts 241-304) -/

/-- One entry of the persisted `attachments` jsonb array (routes.ts 192-197). -/
structure Attachment where
  filename : String
  mimetype : String
  size : Nat
  path : String
deriving Repr, DecidableEq

/-- A persisted message's role: the handler inserts only these two. -/
inductive Role where
  | user
  | assistant
deriving Repr, DecidableEq

/-- A persisted message row as the assembly loop reads it:
`attachments` is `none` for SQL NULL, `some` for a stored array. -/
structure Msg where
  id : Nat
  role : Role
  content : String
  attachments : Option (List Attachment)
deriving Repr, DecidableEq

/-- One element of `processedImages` (routes.ts 187, 200-239). -/
structure ProcImage where
  filename : String
  base64 : String
  mimeType : String
deriving Repr, DecidableEq

/-- One element of a structured multimodal content list
(routes.ts 263-278): a text part or an `image_url` part. -/
inductive ContentPart where
  | text (s : String)
  | imageUrl (url : String)
deriving Repr, DecidableEq

/-- A chat turn's content: plain text or a structured part list. -/
inductive ChatContent where
  | text (s : String)
  | parts (ps : List ContentPart)
deriving Repr, DecidableEq

/-- A provider-bound chat turn (one element of `chatMessages`). -/
structure ChatTurn where
  role : Role
  content : ChatContent
deriving Repr, DecidableEq

/-- The data-URL image part built for one processed image
(routes.ts 272-277). -/
def imagePart (img : ProcImage) : ContentPart :=
  .imageUrl ("data:" ++ img.mimeType ++ ";base64," ++ img.base64)

/-- The bracketed marker for one stored attachment (routes.ts 288-289). -/
def attachmentMarker (a : Attachment) : String :=
  "[Attached file: " ++ a.filename ++ " (" ++ a.mimetype ++ ")]"

/-- The body of the assembly loop for one message (routes.ts 255-303).
`currentId` is the id of the just-inserted user message;
`processedImages` and `documentContent` are this request's live
payload.  JavaScript truthiness of `msg.content` and `documentContent`
is emptiness of the string. -/
def assembleMsg (currentId : Nat) (processedImages : List ProcImage)
    (documentContent : String) (msg : Msg) : ChatTurn :=
  match msg.role with
  | .user =>
      let messageContent : ChatContent :=
        if msg.id = currentId ∧ (processedImages ≠ [] ∨ documentContent ≠ "") then
          if processedImages ≠ [] then
            .parts (ContentPart.text
                ((if msg.content = "" then "Please analyze these images:" else msg.content)
                  ++ documentContent)
              :: processedImages.map imagePart)
          else
            .text ((if msg.content = "" then "Please analyze this document:" else msg.content)
              ++ documentContent)
        else
          match msg.attachments with
          | some atts =>
              .text (msg.content ++ " " ++ joinSpace (atts.map attachmentMarker))
          | none => .text msg.content
      { role := .user, content := messageContent }
  | .assistant => { role := .assistant, content := .text msg.content }

/-- The whole assembly loop: one emitted turn per stored message, in
order (routes.ts 253-304). -/
def assembleChatMessages (msgs : List Msg) (currentId : Nat)
    (processedImages : List ProcImage) (documentContent : String) : List ChatTurn :=
  msgs.map (assembleMsg currentId processedImages documentContent)

/-! ## Provider fallback chain (routes.ts 306-409)

The environment keys and each provider's network outcome are inputs:
`Except.error e` models a thrown call, `Except.ok r` a response whose
`choices[0]?.message?.content` is `r` (`none` for a missing field;
`some ""` is falsy in the `||` default, like `none`). -/

/-- Environment keys (JS truthiness of `process.env.X`: non-empty) and
the outcome each provider's call would have if made. -/
structure ProviderEnv where
  qwenKey : String
  deepseekKey : String
  openaiKey : String
  qwenCall : Except String (Option String)
  deepseekCall : Except String (Option String)
  openaiCall : Except String (Option String)
deriving Repr

/-- The initial `aiContent` (routes.ts 307). -/
def defaultAiContent : String :=
  "I apologize, but I couldn\x27t generate a response at the moment."

/-- `response.choices[0]?.message?.content || aiContent` (routes.ts 329):
a missing or empty content string keeps the previous value. -/
def contentOrDefault (r : Option String) (d : String) : String :=
  match r with
  | some s => if s = "" then d else s
  | none => d

/-- Outcome of the fallback chain: the final `aiContent`, the final
`aiProvider`, and (for invocation accounting) the providers actually
called, in call order. -/
structure ChainResult where
  content : String
  provider : String
  invoked : List String
deriving Repr, DecidableEq

/-- The nested try/catch chain (routes.ts 310-409), literally: the Qwen
call is attempted only under `if (process.env.QWEN_API_KEY)`; the catch
(and with it any DeepSeek/OpenAI attempt) runs only when that call
throws. -/
def runFallbackChain (env : ProviderEnv) : ChainResult :=
  if env.qwenKey ≠ "" then
    match env.qwenCall with
    | .ok r => ⟨contentOrDefault r defaultAiContent, "qwen", ["qwen"]⟩
    | .error _ =>
        if env.deepseekKey ≠ "" then
          match env.deepseekCall with
          | .ok r => ⟨contentOrDefault r defaultAiContent, "deepseek", ["qwen", "deepseek"]⟩
          | .error _ =>
              if env.openaiKey ≠ "" then
                match env.openaiCall with
                | .ok r =>
                    ⟨contentOrDefault r defaultAiContent, "openai",
                      ["qwen", "deepseek", "openai"]⟩
                | .error _ =>
                    ⟨"All AI services are currently unavailable. Please check your API key configurations.",
                      "none", ["qwen", "deepseek", "openai"]⟩
              else
                ⟨"Qwen and DeepSeek APIs failed. Please check your API keys or try again later.",
                  "none", ["qwen", "deepseek"]⟩
        else
          if env.openaiKey ≠ "" then
            match env.openaiCall with
            | .ok r => ⟨contentOrDefault r defaultAiContent, "openai", ["qwen", "openai"]⟩
            | .error _ =>
                ⟨"Qwen API failed and no valid fallback available. Please check your API keys.",
                  "none", ["qwen", "openai"]⟩
          else
            ⟨"Qwen API failed and no fallback API keys are configured.", "none", ["qwen"]⟩
  else
    ⟨defaultAiContent, "none", []⟩

/-- Qwen model selection (routes.ts 314): the vision variant iff images
are present. -/
def qwenModel (processedImages : List ProcImage) : String :=
  if processedImages ≠ [] then "qwen-vl-plus" else "qwen-plus"

/-! ## The send-message handler pipeline (routes.ts 171-457) -/

/-- The per-user token columns the handler touches. -/
structure UserState where
  tokenQuota : Nat
  tokenUsed : Nat
deriving Repr, DecidableEq

/-- The observable outcome of one send: the two persisted messages, the
assembled payload, the chain outcome, the token update and the title. -/
structure SendResult where
  userMessage : Msg
  aiMessage : Msg
  chatMessages : List ChatTurn
  model : String
  provider : String
  invoked : List String
  newTokenUsed : Nat
  newTitle : String
deriving Repr, DecidableEq

/-- The message-send handler after attachment processing
(routes.ts 241-457): insert the user message, assemble the history,
run the fallback chain, insert the assistant message, add the token
estimate to `tokenUsed`, and seed the title.  No step consults
`user.tokenQuota`. -/
def handleSendMessage (env : ProviderEnv) (title : String) (user : UserState)
    (history : List Msg) (newId : Nat) (content : String)
    (processedImages : List ProcImage) (documentContent : String)
    (attachments : Option (List Attachment)) : SendResult :=
  let userMessage : Msg := ⟨newId, .user, content, attachments⟩
  let allMessages := history ++ [userMessage]
  let chat := assembleChatMessages allMessages newId processedImages documentContent
  let chain := runFallbackChain env
  let aiMessage : Msg := ⟨newId + 1, .assistant, chain.content, none⟩
  let est := estimatedTokens content.length chain.content.length
  { userMessage := userMessage
  , aiMessage := aiMessage
  , chatMessages := chat
  , model := qwenModel processedImages
  , provider := chain.provider
  , invoked := chain.invoked
  , newTokenUsed := updateUserTokenUsage user.tokenUsed est
  , newTitle := titleStep title content }

/-! ## Concrete inputs used by counterexamples and witnesses -/

/-- An environment with Qwen unconfigured but DeepSeek configured and
answering: the first configured-and-working provider is DeepSeek. -/
def envQwenUnset : ProviderEnv :=
  ⟨"", "dk", "", .error "unused", .ok (some "hello"), .error "unused"⟩

/-- A 40-character user message. -/
def contentForty : String := String.mk (List.replicate 40 'a')

/-- A 200-character provider answer. -/
def respTwoHundred : String := String.mk (List.replicate 200 'b')

/-- Qwen configured and answering with the 200-character reply. -/
def envC9 : ProviderEnv :=
  ⟨"qk", "", "", .ok (some respTwoHundred), .error "x", .error "x"⟩

/-- The titling input whose seventh whitespace-separated word survives
`split(' ')` because a newline is not the space character. -/
def newlineContent : String := "one\ntwo three four five six seven"

end Chatbot

namespace Chatbot

/-! ## C1: provider fallback chain -/

/-- C1 counterexample: with Qwen unconfigured and DeepSeek configured
and working, the claim predicts recorded provider "deepseek"; the code
never enters the catch (nothing throws when the Qwen attempt is
skipped), invokes no provider at all, and records "none". -/
theorem c1_chain_counterexample :
    (runFallbackChain envQwenUnset).provider = "none" ∧
    (runFallbackChain envQwenUnset).invoked = [] ∧
    (runFallbackChain envQwenUnset).provider ≠ "deepseek" := by
  decide

/-- C1 (amended): when Qwen's key is non-empty, the first
configured-and-working provider in (Qwen, DeepSeek, OpenAI) is the one
recorded, later providers are not invoked, and an unconfigured DeepSeek
is skipped in favour of OpenAI; but when Qwen's key is empty no
provider is invoked at all and the provider stays "none" — the chain
does not advance past an unconfigured Qwen. -/
theorem c1_fallback_chain (env : ProviderEnv) :
    (env.qwenKey ≠ "" → ∀ r, env.qwenCall = .ok r →
      (runFallbackChain env).provider = "qwen" ∧
      (runFallbackChain env).invoked = ["qwen"]) ∧
    (env.qwenKey ≠ "" → ∀ e r, env.qwenCall = .error e →
      env.deepseekKey ≠ "" → env.deepseekCall = .ok r →
      (runFallbackChain env).provider = "deepseek" ∧
      (runFallbackChain env).invoked = ["qwen", "deepseek"]) ∧
    (env.qwenKey ≠ "" → ∀ e r, env.qwenCall = .error e →
      env.deepseekKey = "" → env.openaiKey ≠ "" → env.openaiCall = .ok r →
      (runFallbackChain env).provider = "openai" ∧
      (runFallbackChain env).invoked = ["qwen", "openai"]) ∧
    (env.qwenKey ≠ "" → ∀ e₁ e₂ r, env.qwenCall = .error e₁ →
      env.deepseekKey ≠ "" → env.deepseekCall = .error e₂ →
      env.openaiKey ≠ "" → env.openaiCall = .ok r →
      (runFallbackChain env).provider = "openai" ∧
      (runFallbackChain env).invoked = ["qwen", "deepseek", "openai"]) ∧
    (env.qwenKey = "" →
      (runFallbackChain env).provider = "none" ∧
      (runFallbackChain env).invoked = []) := by
  refine ⟨?_, ?_, ?_, ?_, ?_⟩
  · intro hq r hc
    simp [runFallbackChain, hq, hc]
  · intro hq e r hc hd hdc
    simp [runFallbackChain, hq, hc, hd, hdc]
  · intro hq e r hc hd ho hoc
    simp [runFallbackChain, hq, hc, hd, ho, hoc]
  · intro hq e₁ e₂ r hc hd hdc ho hoc
    simp [runFallbackChain, hq, hc, hd, hdc, ho, hoc]
  · intro hq
    simp [runFallbackChain, hq]

/-- C1 witness: a concrete environment where Qwen is configured and
answers. -/
theorem c1_fallback_chain_witness :
    (runFallbackChain ⟨"qk", "", "", .ok (some "hi"), .error "x", .error "x"⟩).provider
        = "qwen" ∧
    (runFallbackChain ⟨"qk", "", "", .ok (some "hi"), .error "x", .error "x"⟩).invoked
        = ["qwen"] :=
  (c1_fallback_chain ⟨"qk", "", "", .ok (some "hi"), .error "x", .error "x"⟩).1
    (by decide) (some "hi") rfl

/-! ## C2: zero providers configured -/

/-- C2: with all three API keys empty, the assistant content persisted
for the turn is exactly the fixed fallback string (the initial
`aiContent`), the recorded provider is "none", and the send completes
normally (the handler is a total function: nothing is thrown). -/
theorem c2_no_providers (env : ProviderEnv) (title : String) (user : UserState)
    (history : List Msg) (newId : Nat) (content : String)
    (imgs : List ProcImage) (docC : String) (atts : Option (List Attachment))
    (hq : env.qwenKey = "") (_hd : env.deepseekKey = "") (_ho : env.openaiKey = "") :
    (handleSendMessage env title user history newId content imgs docC atts).aiMessage.content
        = defaultAiContent ∧
    (handleSendMessage env title user history newId content imgs docC atts).provider
        = "none" := by
  simp [handleSendMessage, runFallbackChain, hq]

/-- C2 witness: a concrete unconfigured environment. -/
theorem c2_no_providers_witness :
    (handleSendMessage ⟨"", "", "", .error "x", .error "x", .error "x"⟩ "New Chat"
        ⟨100, 0⟩ [] 1 "hello" [] "" none).aiMessage.content = defaultAiContent ∧
    (handleSendMessage ⟨"", "", "", .error "x", .error "x", .error "x"⟩ "New Chat"
        ⟨100, 0⟩ [] 1 "hello" [] "" none).provider = "none" :=
  c2_no_providers ⟨"", "", "", .error "x", .error "x", .error "x"⟩ "New Chat"
    ⟨100, 0⟩ [] 1 "hello" [] "" none rfl rfl rfl

/-! ## C3: multimodal assembly touches only the current turn -/

/-- C3: with at least one image supplied, every stored message whose id
differs from the current one is emitted as plain text (never a
structured part list); a prior user turn with stored attachment
metadata is emitted as its original content followed by one bracketed
marker per attachment; and the current user turn is emitted as a
structured list whose head is the text segment (original content, or
the default prompt when empty, with the extracted document text
appended) followed by one image part per supplied image in order. -/
theorem c3_assembler (msgs : List Msg) (currentId : Nat)
    (imgs : List ProcImage) (docC : String) (hImgs : imgs ≠ []) :
    (∀ m ∈ msgs, assembleMsg currentId imgs docC m ∈
        assembleChatMessages msgs currentId imgs docC) ∧
    (∀ m ∈ msgs, m.id ≠ currentId → ∃ s,
      (assembleMsg currentId imgs docC m).content = ChatContent.text s) ∧
    (∀ m ∈ msgs, m.id ≠ currentId → m.role = Role.user →
      ∀ atts, m.attachments = some atts →
      (assembleMsg currentId imgs docC m).content =
        ChatContent.text (m.content ++ " " ++ joinSpace (atts.map attachmentMarker))) ∧
    (∀ m ∈ msgs, m.id = currentId → m.role = Role.user →
      (assembleMsg currentId imgs docC m).content =
        ChatContent.parts (ContentPart.text
            ((if m.content = "" then "Please analyze these images:" else m.content) ++ docC)
          :: imgs.map imagePart)) := by
  refine ⟨?_, ?_, ?_, ?_⟩
  · intro m hm
    exact List.mem_map_of_mem _ hm
  · intro m _ hid
    cases hrole : m.role with
    | user =>
        simp only [assembleMsg, hrole]
        rw [if_neg (by simp [hid])]
        cases m.attachments <;> exact ⟨_, rfl⟩
    | assistant => exact ⟨m.content, by simp [assembleMsg, hrole]⟩
  · intro m _ hid hrole atts hatts
    simp only [assembleMsg, hrole]
    rw [if_neg (by simp [hid])]
    simp [hatts]
  · intro m _ hid hrole
    simp only [assembleMsg, hrole]
    rw [if_pos ⟨hid, Or.inl hImgs⟩, if_pos hImgs]

/-- C3 witness: a one-message history whose current turn carries one
image and no document text. -/
theorem c3_assembler_witness :
    (assembleMsg 3 [⟨"p.png", "QUJD", "image/png"⟩] ""
        ⟨3, Role.user, "look", none⟩).content =
      ChatContent.parts (ContentPart.text
          ((if "look" = "" then "Please analyze these images:" else "look") ++ "")
        :: ([⟨"p.png", "QUJD", "image/png"⟩] : List ProcImage).map imagePart) :=
  (c3_assembler [⟨3, Role.user, "look", none⟩] 3 [⟨"p.png", "QUJD", "image/png"⟩] ""
      (by decide)).2.2.2 ⟨3, Role.user, "look", none⟩ (by decide) rfl rfl

/-! ## C4: token estimate and increment -/

/-- C4: the estimate is the ceiling of (userLen + aiLen) / 4 — it is
the unique natural with userLen + aiLen ≤ 4·est < userLen + aiLen + 4 —
with 40 and 200 giving exactly 60; and the stored-procedure update is
the single increment expression `tokenUsed + N` applied to the current
column value, so two consecutive updates add both amounts (no lost
read-then-write update). -/
theorem c4_token_accounting :
    (∀ u a : Nat, u + a ≤ 4 * estimatedTokens u a ∧
      4 * estimatedTokens u a < u + a + 4) ∧
    estimatedTokens 40 200 = 60 ∧
    (∀ t n : Nat, updateUserTokenUsage t n = t + n) ∧
    (∀ t n₁ n₂ : Nat,
      updateUserTokenUsage (updateUserTokenUsage t n₁) n₂ = t + (n₁ + n₂)) := by
  refine ⟨?_, by decide, fun t n => rfl, fun t n₁ n₂ => by
    simp [updateUserTokenUsage, Nat.add_assoc]⟩
  intro u a
  unfold estimatedTokens
  have h := Nat.div_add_mod (u + a + 3) 4
  have h2 : (u + a + 3) % 4 < 4 := Nat.mod_lt _ (by norm_num)
  omega

/-! ## C5: upload allow-list -/

/-- C5 counterexample: two divergences from the claim at concrete
inputs — the claim's allow-list includes WebP, but the multer
`allowedTypes` array has no `image/webp` entry, so a WebP upload of any
size is dropped instead of accepted; and an allowed-type file one byte
over 10 MiB passes the `fileFilter` but trips `limits.fileSize`, which
aborts the whole request with `LIMIT_FILE_SIZE` — a hard error, not a
drop from the pipeline. -/
theorem c5_counterexample :
    specUploadAccept "image/webp" 0 = true ∧
    uploadFileOutcome "image/webp" 0 = .dropped ∧
    uploadFileOutcome "image/png" (fileSizeLimit + 1) = .aborted "LIMIT_FILE_SIZE" ∧
    uploadFileOutcome "image/png" (fileSizeLimit + 1) ≠ .dropped := by
  decide

/-- C5 (amended): a file is accepted for processing iff its declared
media type is one of JPEG, PNG, GIF (not WebP), PDF, the Word-processor
format, the spreadsheet format or plain text, and its size is at most
10 MiB; a media-type violation causes the file to be silently dropped
from the pipeline, while an allowed-type file over 10 MiB aborts the
whole request with multer's LIMIT_FILE_SIZE error — a hard error, not a
per-file drop. -/
theorem c5_upload_filter (m : String) (s : Nat) :
    (uploadFileOutcome m s = .accepted ↔
      ((m = "image/jpeg" ∨ m = "image/png" ∨ m = "image/gif" ∨
        m = "application/pdf" ∨
        m = "application/vnd.openxmlformats-officedocument.wordprocessingml.document" ∨
        m = "application/vnd.openxmlformats-officedocument.spreadsheetml.sheet" ∨
        m = "text/plain") ∧ s ≤ 10 * 1024 * 1024)) ∧
    (uploadFileOutcome m s = .dropped ↔
      ¬(m = "image/jpeg" ∨ m = "image/png" ∨ m = "image/gif" ∨
        m = "application/pdf" ∨
        m = "application/vnd.openxmlformats-officedocument.wordprocessingml.document" ∨
        m = "application/vnd.openxmlformats-officedocument.spreadsheetml.sheet" ∨
        m = "text/plain")) ∧
    (uploadFileOutcome m s = .aborted "LIMIT_FILE_SIZE" ↔
      ((m = "image/jpeg" ∨ m = "image/png" ∨ m = "image/gif" ∨
        m = "application/pdf" ∨
        m = "application/vnd.openxmlformats-officedocument.wordprocessingml.document" ∨
        m = "application/vnd.openxmlformats-officedocument.spreadsheetml.sheet" ∨
        m = "text/plain") ∧ ¬ s ≤ 10 * 1024 * 1024)) := by
  have hmem : m ∈ allowedTypes ↔
      (m = "image/jpeg" ∨ m = "image/png" ∨ m = "image/gif" ∨
        m = "application/pdf" ∨
        m = "application/vnd.openxmlformats-officedocument.wordprocessingml.document" ∨
        m = "application/vnd.openxmlformats-officedocument.spreadsheetml.sheet" ∨
        m = "text/plain") := by
    simp only [allowedTypes, List.mem_cons, List.mem_singleton,
      List.not_mem_nil, or_false]
  refine ⟨?_, ?_, ?_⟩ <;>
    · rw [← hmem]
      unfold uploadFileOutcome fileSizeLimit
      by_cases h1 : m ∈ allowedTypes <;>
        by_cases h2 : s ≤ 10 * 1024 * 1024 <;>
          simp [h1, h2]

/-! ## C6: document extraction is total -/

/-- C6: `processDocument` maps every outcome of the fallible body to a
plain string — a thrown extraction becomes the inline error marker for
that file's slot, a successful extraction is passed through, a readable
file of a type outside the dispatch table becomes the bracketed
placeholder naming the type, and a spreadsheet becomes, sheet by sheet
in file order, a `Sheet: name` header line followed by the sheet's
comma-separated values. -/
theorem c6_process_document (readFile : Except String FileBytes) (mime : String) :
    (∀ e, processDocumentExc readFile mime = .error e →
      processDocument readFile mime = "[Error processing file: " ++ e ++ "]") ∧
    (∀ s, processDocumentExc readFile mime = .ok s →
      processDocument readFile mime = s) ∧
    (∀ b, readFile = .ok b →
      mime ≠ "application/pdf" →
      mime ≠ "application/vnd.openxmlformats-officedocument.wordprocessingml.document" →
      mime ≠ "application/vnd.openxmlformats-officedocument.spreadsheetml.sheet" →
      mime ≠ "text/plain" →
      processDocument readFile mime = "[File: " ++ mime ++ "]") ∧
    (∀ b wb, readFile = .ok b →
      mime = "application/vnd.openxmlformats-officedocument.spreadsheetml.sheet" →
      b.xlsxRead = .ok wb →
      processDocument readFile mime = excelText wb) := by
  refine ⟨?_, ?_, ?_, ?_⟩
  · intro e he
    simp [processDocument, he]
  · intro s hs
    simp [processDocument, hs]
  · intro b hb h1 h2 h3 h4
    subst hb
    have hexc : processDocumentExc (.ok b) mime = .ok ("[File: " ++ mime ++ "]") := by
      simp only [processDocumentExc]
    simp [processDocument, hexc]
  · intro b wb hb hmm hx
    subst hb
    subst hmm
    simp [processDocument, processDocumentExc, hx]

/-- C6 witness: an unreadable file yields the error marker; a readable
file of an undispatched type yields the bracketed type placeholder. -/
theorem c6_process_document_witness :
    processDocument (.error "boom") "application/pdf" =
        "[Error processing file: boom]" ∧
    processDocument (.ok ⟨.ok "p", .ok "d", .ok ⟨[]⟩, "t"⟩) "application/zip" =
        "[File: application/zip]" :=
  ⟨(c6_process_document (.error "boom") "application/pdf").1 "boom" rfl,
   (c6_process_document (.ok ⟨.ok "p", .ok "d", .ok ⟨[]⟩, "t"⟩) "application/zip").2.2.1
     ⟨.ok "p", .ok "d", .ok ⟨[]⟩, "t"⟩ rfl (by decide) (by decide) (by decide) (by decide)⟩

/-! ## C7: title seeding -/

/-- C7 counterexample: the code splits on the single space character,
not on whitespace: seeding from a message whose first two words are
separated by a newline keeps all seven whitespace-separated words,
while the first six whitespace-separated words form a different
string. -/
theorem c7_counterexample :
    titleStep "New Conversation" newlineContent = newlineContent ∧
    specDeriveTitle newlineContent = "one two three four five six" ∧
    titleStep "New Conversation" newlineContent ≠ specDeriveTitle newlineContent := by
  decide

/-- C7 (amended): iff the stored title is a sentinel, it is replaced by
the first six space-separated tokens (JavaScript `split(' ')`, which
splits on the space character only, not on all whitespace) of the
message joined by spaces, truncated to 47 characters plus "..." when
longer than 50 — so a seeded title never exceeds 50 characters; a
non-sentinel title is left unchanged. -/
theorem c7_title_seeding (title content : String) :
    ((title = "New Conversation" ∨ title = "New Chat") →
      titleStep title content =
        (let words := joinSpace ((splitString (· == ' ') content).take 6)
         if words.length > 50 then substringTo 47 words ++ "..." else words)) ∧
    (¬(title = "New Conversation" ∨ title = "New Chat") →
      titleStep title content = title) ∧
    ((title = "New Conversation" ∨ title = "New Chat") →
      (titleStep title content).length ≤ 50) := by
  refine ⟨fun h => by simp [titleStep, h, deriveTitle], fun h => by simp [titleStep, h], ?_⟩
  intro h
  simp only [titleStep, if_pos h, deriveTitle]
  set words := joinSpace ((splitString (· == ' ') content).take 6) with hw
  by_cases hlen : words.length > 50
  · rw [if_pos hlen]
    have : (substringTo 47 words).length = min 47 words.length := by
      simp [substringTo]
    simp only [String.length_append, this]
    have : ("..." : String).length = 3 := by decide
    omega
  · rw [if_neg hlen]
    omega

/-- C7 witness: seeding a sentinel-titled conversation yields a title
of at most 50 characters. -/
theorem c7_title_seeding_witness :
    (titleStep "New Conversation" "hello world").length ≤ 50 :=
  (c7_title_seeding "New Conversation" "hello world").2.2 (Or.inl rfl)

/-! ## C8: titling test vector -/

/-- C8 counterexample: `split(' ').slice(0, 6)` keeps six words, so the
seeded title is "What is the capital of France", not the claimed
seven-word "What is the capital of France and". -/
theorem c8_counterexample :
    titleStep "New Conversation" "What is the capital of France and why?" =
        "What is the capital of France" ∧
    titleStep "New Conversation" "What is the capital of France and why?" ≠
        "What is the capital of France and" := by
  decide

/-- C8 (amended): the first message "What is the capital of France and
why?" seeds the sentinel-titled conversation with "What is the capital
of France" (its first six space-separated words), and once seeded the
title is unchanged by any later message. -/
theorem c8_titling_vector :
    titleStep "New Conversation" "What is the capital of France and why?" =
        "What is the capital of France" ∧
    titleStep "New Chat" "What is the capital of France and why?" =
        "What is the capital of France" ∧
    (∀ c₂ : String, titleStep "What is the capital of France" c₂ =
        "What is the capital of France") := by
  refine ⟨by decide, by decide, fun c₂ => ?_⟩
  simp [titleStep]

/-! ## C9: quota is not enforced on send -/

set_option maxRecDepth 8192 in
/-- C9: the handler's outcome is entirely independent of the user's
`tokenQuota` (there is no pre-flight check), `tokenUsed` is always
incremented by the estimate, and in the concrete scenario a user with
quota 100 and 90 used sends a 40-character message, receives a
200-character answer, and ends at 150 used — past the quota. -/
theorem c9_no_quota_enforcement :
    (∀ (env : ProviderEnv) (title : String) (q₁ q₂ used : Nat)
        (history : List Msg) (newId : Nat) (content : String)
        (imgs : List ProcImage) (docC : String) (atts : Option (List Attachment)),
      handleSendMessage env title ⟨q₁, used⟩ history newId content imgs docC atts =
        handleSendMessage env title ⟨q₂, used⟩ history newId content imgs docC atts) ∧
    (∀ (env : ProviderEnv) (title : String) (user : UserState)
        (history : List Msg) (newId : Nat) (content : String)
        (imgs : List ProcImage) (docC : String) (atts : Option (List Attachment)),
      (handleSendMessage env title user history newId content imgs docC atts).newTokenUsed =
        user.tokenUsed +
          estimatedTokens content.length (runFallbackChain env).content.length) ∧
    (handleSendMessage envC9 "t" ⟨100, 90⟩ [] 1 contentForty [] "" none).newTokenUsed
        = 150 ∧
    100 < 150 := by
  refine ⟨fun _ _ _ _ _ _ _ _ _ _ _ => rfl, fun _ _ _ _ _ _ _ _ _ => rfl, by decide,
    by norm_num⟩

/-! ## C10: token accounting also charges for fallback text -/

/-- C10: when no provider is configured, or when a configured Qwen call
throws with no fallback keys set, the token update still runs and adds
the estimate computed from the user text and the fixed fallback string,
exactly as for a real answer. -/
theorem c10_charged_for_fallback (env : ProviderEnv) (title : String)
    (user : UserState) (history : List Msg) (newId : Nat) (content : String)
    (imgs : List ProcImage) (docC : String) (atts : Option (List Attachment)) :
    (env.qwenKey = "" → env.deepseekKey = "" → env.openaiKey = "" →
      (handleSendMessage env title user history newId content imgs docC atts).newTokenUsed =
        user.tokenUsed + estimatedTokens content.length defaultAiContent.length) ∧
    (env.qwenKey ≠ "" → (∀ e, env.qwenCall = .error e →
      env.deepseekKey = "" → env.openaiKey = "" →
      (handleSendMessage env title user history newId content imgs docC atts).newTokenUsed =
        user.tokenUsed + estimatedTokens content.length
          ("Qwen API failed and no fallback API keys are configured.").length)) := by
  constructor
  · intro hq _ _
    simp [handleSendMessage, runFallbackChain, hq, updateUserTokenUsage]
  · intro hq e hc hd ho
    simp [handleSendMessage, runFallbackChain, hq, hc, hd, ho, updateUserTokenUsage]

/-- C10 witness: a wholly unconfigured environment charges the user for
the default fallback string. -/
theorem c10_charged_for_fallback_witness :
    (handleSendMessage ⟨"", "", "", .error "x", .error "x", .error "x"⟩ "t"
        ⟨100, 0⟩ [] 1 "hey" [] "" none).newTokenUsed =
      0 + estimatedTokens ("hey").length defaultAiContent.length :=
  (c10_charged_for_fallback ⟨"", "", "", .error "x", .error "x", .error "x"⟩ "t"
    ⟨100, 0⟩ [] 1 "hey" [] "" none).1 rfl rfl rfl

end Chatbot
